import Mathlib

/-!
# Verification of the bustub buffer-pool core (LRU-K replacer, buffer pool
# manager, page guards)

Shallow embedding of `src/buffer/lru_k_replacer.cpp`,
`src/buffer/buffer_pool_manager.cpp` and `src/storage/page/page_guard.cpp`.
Machine integers (`frame_id_t`, `page_id_t` are 32-bit ints in the source)
are modelled as `Int`; the values reached in the scenarios below stay far
from the 32-bit bounds, so no wrap-around modelling is needed.  Page data is
modelled as an abstract `Nat` (the buffer contents); `ResetMemory` zeroes it.
Disk traffic is modelled both as a persistent association list (the disk
contents) and as an ordered trace of `DiskOp` events emitted by each call.
-/

namespace Bustub

/-- Source: `INVALID_PAGE_ID` sentinel from the source headers (the spec fixes it
at `-1`). -/
def INVALID_PAGE_ID : Int := -1

/-! ## Association-list helpers (model of `std::unordered_map`) -/

/-- Lookup in an association list (model of `map.find` / `map.at`). -/
def assocFind {β : Type} (m : List (Int × β)) (key : Int) : Option β :=
  match m with
  | [] => none
  | (k, v) :: rest => if k = key then some v else assocFind rest key

/-- Insert-or-assign (model of `map[key] = v` and of in-place mutation of a
found entry). -/
def assocSet {β : Type} (m : List (Int × β)) (key : Int) (v : β) :
    List (Int × β) :=
  match m with
  | [] => [(key, v)]
  | (k, w) :: rest =>
      if k = key then (k, v) :: rest else (k, w) :: assocSet rest key v

/-- Erase by key (model of `map.erase(key)`); no-op when absent. -/
def assocErase {β : Type} (m : List (Int × β)) (key : Int) :
    List (Int × β) :=
  match m with
  | [] => []
  | (k, w) :: rest =>
      if k = key then rest else (k, w) :: assocErase rest key

/-- Erase the first occurrence of `x` from a list (model of
`list.erase(iterator)`, where the iterator designates the unique position
holding `x`; the replacer lists never hold a frame id twice). -/
def listEraseFirst (l : List Int) (x : Int) : List Int :=
  match l with
  | [] => []
  | y :: rest => if y = x then rest else y :: listEraseFirst rest x

/-! ## LRU-K replacer (`src/buffer/lru_k_replacer.cpp`) -/

/-- Per-frame node of the replacer.  Mirrors `LRUKNode`: an access count
`k_`, the deque of retained timestamps `history_` (front first), and the
`is_evictable_` flag.  The list-iterator member `iter_` is represented
implicitly: erasures go through `listEraseFirst` on the node's own id. -/
structure LRUKNode where
  k : Nat
  history : List Nat
  is_evictable : Bool
deriving DecidableEq, Repr

/-- State of `LRUKReplacer`: `node_store_`, the two intrusive lists (as
lists of frame ids, head = `begin()`), `curr_size_`, `current_timestamp_`,
and the construction parameters `replacer_size_` (= `num_frames`) and `k_`.
`current_timestamp_` and `curr_size_` start at `0` (brace-initialised in
the header, per the spec's data model). -/
structure LRUKReplacer where
  node_store : List (Int × LRUKNode)
  history_list : List Int
  cache_list : List Int
  curr_size : Nat
  current_timestamp : Nat
  replacer_size : Nat
  k : Nat
deriving DecidableEq, Repr

/-- Source: `LRUKReplacer::LRUKReplacer(num_frames, k)`. -/
def LRUKReplacer.init (num_frames k : Nat) : LRUKReplacer :=
  ⟨[], [], [], 0, 0, num_frames, k⟩

/-- Timestamp key of a frame already stored in `node_store_`:
`node_store_.at(id).history_.front()` as read by the `find_if` lambda in
`RecordAccess` (defaults are irrelevant: the scanned ids are stored and
have non-empty histories whenever the source evaluates this). -/
def frontOf (store : List (Int × LRUKNode)) (id : Int) : Nat :=
  match assocFind store id with
  | some n => n.history.headD 0
  | none => 0

/-- Source: `cache_list_.insert(find_if(...), frame_id)`: insert `fid` before the
first id whose front timestamp is `≥ k_timestamp`. -/
def cacheInsert (store : List (Int × LRUKNode)) (kts : Nat) (fid : Int) :
    List Int → List Int
  | [] => [fid]
  | x :: xs =>
      if kts ≤ frontOf store x then fid :: x :: xs
      else x :: cacheInsert store kts fid xs

/-- Source: `LRUKReplacer::RecordAccess`.  Bounds check is the source's strict
`frame_id > static_cast<int>(replacer_size_)`.  An unknown frame gets a
fresh node `LRUKNode(1, …, true)` appended to the history list (no
timestamp recorded, `current_timestamp_` not incremented — both statements
are in the `else` branch only).  A known frame pushes the current
timestamp, migrates between the lists when `k_` reaches/exceeds `k`, and
then `current_timestamp_` is incremented. -/
def LRUKReplacer.recordAccess (r : LRUKReplacer) (fid : Int) : LRUKReplacer :=
  if fid > (r.replacer_size : Int) then r
  else
    match assocFind r.node_store fid with
    | none =>
        { r with
          history_list := r.history_list ++ [fid]
          node_store := r.node_store ++ [(fid, ⟨1, [], true⟩)]
          curr_size := r.curr_size + 1 }
    | some node =>
        let k' := node.k + 1
        let hist1 := node.history ++ [r.current_timestamp]
        let hist2 := if k' > r.k then hist1.drop 1 else hist1
        let hl' := if k' = r.k then listEraseFirst r.history_list fid
                   else r.history_list
        let cl1 := if k' > r.k then listEraseFirst r.cache_list fid
                   else r.cache_list
        let node' : LRUKNode := ⟨k', hist2, node.is_evictable⟩
        let store' := assocSet r.node_store fid node'
        let cl2 := if k' ≥ r.k then
                     cacheInsert store' (hist2.headD 0) fid cl1
                   else cl1
        { r with
          node_store := store'
          history_list := hl'
          cache_list := cl2
          current_timestamp := r.current_timestamp + 1 }

/-- First evictable id of a list (the scan loops in `Evict`). -/
def findEvictable (store : List (Int × LRUKNode)) : List Int → Option Int
  | [] => none
  | x :: xs =>
      match assocFind store x with
      | some n => if n.is_evictable then some x else findEvictable store xs
      | none => findEvictable store xs

/-- Source: `LRUKReplacer::Evict`.  Returns `none` when `curr_size_ = 0` or no
evictable node exists; otherwise the first evictable node of the history
list (insertion order), else of the cache list, removed from its list and
from `node_store_`, with `curr_size_` decremented. -/
def LRUKReplacer.evict (r : LRUKReplacer) : Option Int × LRUKReplacer :=
  if r.curr_size = 0 then (none, r)
  else
    match findEvictable r.node_store r.history_list with
    | some fid =>
        (some fid,
         { r with
           node_store := assocErase r.node_store fid
           history_list := listEraseFirst r.history_list fid
           curr_size := r.curr_size - 1 })
    | none =>
        match findEvictable r.node_store r.cache_list with
        | some fid =>
            (some fid,
             { r with
               node_store := assocErase r.node_store fid
               cache_list := listEraseFirst r.cache_list fid
               curr_size := r.curr_size - 1 })
        | none => (none, r)

/-- Source: `LRUKReplacer::SetEvictable`: toggles the flag, adjusting `curr_size_`
only on an actual change; unknown frames ignored. -/
def LRUKReplacer.setEvictable (r : LRUKReplacer) (fid : Int) (flag : Bool) :
    LRUKReplacer :=
  match assocFind r.node_store fid with
  | none => r
  | some node =>
      if node.is_evictable ∧ ¬flag then
        { r with
          node_store := assocSet r.node_store fid { node with is_evictable := false }
          curr_size := r.curr_size - 1 }
      else if ¬node.is_evictable ∧ flag then
        { r with
          node_store := assocSet r.node_store fid { node with is_evictable := true }
          curr_size := r.curr_size + 1 }
      else r

/-- Source: `LRUKReplacer::Remove`: no-op on unknown or non-evictable frames, else
erases the node from its list (history list when `k_ < k`, cache list
otherwise) and from the store, decrementing `curr_size_`. -/
def LRUKReplacer.remove (r : LRUKReplacer) (fid : Int) : LRUKReplacer :=
  match assocFind r.node_store fid with
  | none => r
  | some node =>
      if ¬node.is_evictable then r
      else
        { r with
          node_store := assocErase r.node_store fid
          history_list := if node.k < r.k then listEraseFirst r.history_list fid
                          else r.history_list
          cache_list := if node.k < r.k then r.cache_list
                        else listEraseFirst r.cache_list fid
          curr_size := r.curr_size - 1 }

/-- Run `recordAccess` over a whole access sequence. -/
def LRUKReplacer.recordAll (r : LRUKReplacer) (fids : List Int) : LRUKReplacer :=
  fids.foldl LRUKReplacer.recordAccess r

/-- The sequence of `n` successive `evict` results (dropping `none`s would
hide failures, so each entry is the raw `Option`). -/
def LRUKReplacer.evictSeq (r : LRUKReplacer) : Nat → List (Option Int)
  | 0 => []
  | n + 1 =>
      let (res, r') := r.evict
      res :: r'.evictSeq n

/-! ## Buffer pool manager (`src/buffer/buffer_pool_manager.cpp`) -/

/-- A page frame (`Page` object from the storage headers, per the spec's
data model): current `page_id_` (or `INVALID_PAGE_ID`), the byte buffer
`data` (abstract `Nat`, `ResetMemory` sets it to `0`), `pin_count_` and
`is_dirty_`.  Frames start as `⟨INVALID_PAGE_ID, 0, 0, false⟩`. -/
structure Page where
  page_id : Int
  data : Nat
  pin_count : Int
  is_dirty : Bool
deriving DecidableEq, Repr

instance : Inhabited Page := ⟨⟨INVALID_PAGE_ID, 0, 0, false⟩⟩

/-- One disk-manager call, in issue order. -/
inductive DiskOp where
  | write (pid : Int) (d : Nat)
  | read (pid : Int)
deriving DecidableEq, Repr

/-- State of `BufferPoolManager`: the frame array `pages_`, the page table
`page_table_ : page_id → frame index`, the free list (back = end of list;
`pop_back` takes the last element), the replacer, the allocation counter
`next_page_id_` (starts at `0`), and the disk contents seen by the disk
manager (pages absent from `disk` read as zeroes). -/
structure BPM where
  pool_size : Nat
  pages : List Page
  page_table : List (Int × Nat)
  free_list : List Nat
  replacer : LRUKReplacer
  next_page_id : Int
  disk : List (Int × Nat)
deriving DecidableEq, Repr

/-- Association-list helpers for `Nat`-valued maps (page table, disk). -/
def assocFindN (m : List (Int × Nat)) (key : Int) : Option Nat :=
  match m with
  | [] => none
  | (k, v) :: rest => if k = key then some v else assocFindN rest key

def assocSetN (m : List (Int × Nat)) (key : Int) (v : Nat) :
    List (Int × Nat) :=
  match m with
  | [] => [(key, v)]
  | (k, w) :: rest =>
      if k = key then (k, v) :: rest else (k, w) :: assocSetN rest key v

def assocEraseN (m : List (Int × Nat)) (key : Int) : List (Int × Nat) :=
  match m with
  | [] => []
  | (k, w) :: rest =>
      if k = key then rest else (k, w) :: assocEraseN rest key

/-- Source: `BufferPoolManager::BufferPoolManager(pool_size, …, replacer_k, …)`:
fresh frames, every index in the free list (pushed back in order
`0, …, pool_size-1`), a fresh replacer, `next_page_id_ = 0`, empty disk. -/
def BPM.init (pool_size replacer_k : Nat) : BPM :=
  ⟨pool_size,
   List.replicate pool_size default,
   [],
   List.range pool_size,
   LRUKReplacer.init pool_size replacer_k,
   0,
   []⟩

/-- The frame at index `fid` (`pages_[fid]`). -/
def BPM.frame (b : BPM) (fid : Nat) : Page := b.pages.getD fid default

/-- The common frame-acquisition prologue of `NewPage` and `FetchPage`:
pop the free list's back if non-empty, else ask the replacer to evict;
`none` when both fail. -/
def BPM.acquireFrame (b : BPM) : Option (Nat × BPM) :=
  if b.free_list.isEmpty then
    match b.replacer.evict with
    | (some fid, r') => some (fid.toNat, { b with replacer := r' })
    | (none, _) => none
  else
    some (b.free_list.getLast?.getD 0, { b with free_list := b.free_list.dropLast })

/-- The victim-recycling step shared by `NewPage` and `FetchPage`: erase
the frame's old page-table entry, and when the frame is dirty write its
buffer to disk under the old `page_id_` and clear the dirty bit.  Returns
the updated state and the disk trace of this step. -/
def BPM.recycleFrame (b : BPM) (fid : Nat) : BPM × List DiskOp :=
  if (b.frame fid).is_dirty then
    ({ b with
       page_table := assocEraseN b.page_table (b.frame fid).page_id
       disk := assocSetN b.disk (b.frame fid).page_id (b.frame fid).data
       pages := b.pages.set fid { b.frame fid with is_dirty := false } },
     [DiskOp.write (b.frame fid).page_id (b.frame fid).data])
  else ({ b with page_table := assocEraseN b.page_table (b.frame fid).page_id }, [])

/-- Source: `BufferPoolManager::NewPage`.  Result is `some (page_id, frame_id)` on
success (`Page *` return plus the out-parameter), together with the new
state and the disk trace. -/
def BPM.newPage (b : BPM) : Option (Int × Nat) × BPM × List DiskOp :=
  match b.acquireFrame with
  | none => (none, b, [])
  | some (fid, b1) =>
      let b2 := (b1.recycleFrame fid).1
      let pid := b2.next_page_id
      (some (pid, fid),
       { b2 with
         next_page_id := b2.next_page_id + 1
         pages := b2.pages.set fid ⟨pid, 0, 1, false⟩
         page_table := assocSetN b2.page_table pid fid
         replacer := ((b2.replacer.recordAccess (fid : Int)).setEvictable
                       (fid : Int) false) },
       (b1.recycleFrame fid).2)

/-- Source: `BufferPoolManager::FetchPage`.  On a hit, bump the pin and notify the
replacer; on a miss, acquire and recycle a frame, install the mapping with
`pin_count = 1`, zero the buffer, then read the page from disk (the read is
issued last, after the replacer calls).  Result is `some frame_id` for the
returned `Page *`. -/
def BPM.fetchPage (b : BPM) (pid : Int) : Option Nat × BPM × List DiskOp :=
  if pid = INVALID_PAGE_ID then (none, b, [])
  else
    match assocFindN b.page_table pid with
    | some fid =>
        let p := b.frame fid
        (some fid,
         { b with
           pages := b.pages.set fid { p with pin_count := p.pin_count + 1 }
           replacer := ((b.replacer.recordAccess (fid : Int)).setEvictable
                         (fid : Int) false) },
         [])
    | none =>
        match b.acquireFrame with
        | none => (none, b, [])
        | some (fid, b1) =>
            let b2 := (b1.recycleFrame fid).1
            (some fid,
             { b2 with
               pages := b2.pages.set fid
                 ⟨pid, (assocFindN b2.disk pid).getD 0, 1, false⟩
               page_table := assocSetN b2.page_table pid fid
               replacer := ((b2.replacer.recordAccess (fid : Int)).setEvictable
                             (fid : Int) false) },
             (b1.recycleFrame fid).2 ++ [DiskOp.read pid])

/-- Source: `BufferPoolManager::UnpinPage`.  Note the source ORs `is_dirty` into
the frame *before* the `pin_count ≤ 0` check, so a failing call on a
resident zero-pinned frame still updates the dirty bit. -/
def BPM.unpinPage (b : BPM) (pid : Int) (is_dirty : Bool) : Bool × BPM :=
  if pid = INVALID_PAGE_ID then (false, b)
  else
    match assocFindN b.page_table pid with
    | none => (false, b)
    | some fid =>
        let p := b.frame fid
        let p1 := { p with is_dirty := p.is_dirty || is_dirty }
        let b1 := { b with pages := b.pages.set fid p1 }
        if p1.pin_count ≤ 0 then (false, b1)
        else
          let p2 := { p1 with pin_count := p1.pin_count - 1 }
          let b2 := { b1 with pages := b1.pages.set fid p2 }
          if p2.pin_count = 0 then
            (true, { b2 with replacer := b2.replacer.setEvictable (fid : Int) true })
          else (true, b2)

/-- Source: `BufferPoolManager::FlushPage`: unconditional write of a resident page
(dirty or not), then the dirty bit is cleared; `false` on `INVALID_PAGE_ID`
or a non-resident page. -/
def BPM.flushPage (b : BPM) (pid : Int) : Bool × BPM × List DiskOp :=
  if pid = INVALID_PAGE_ID then (false, b, [])
  else
    match assocFindN b.page_table pid with
    | none => (false, b, [])
    | some fid =>
        let p := b.frame fid
        (true,
         { b with
           disk := assocSetN b.disk pid p.data
           pages := b.pages.set fid { p with is_dirty := false } },
         [DiskOp.write pid p.data])

/-- Source: `DeallocatePage`: a no-op placeholder in the source header (the spec:
"deallocate is a no-op placeholder (slot is not recycled)"). -/
def BPM.deallocatePage (b : BPM) (_pid : Int) : BPM := b

/-- Source: `BufferPoolManager::DeletePage`: `true` immediately on
`INVALID_PAGE_ID`; `true` after deallocation when non-resident; `false`
(state unchanged) on a pinned resident page; otherwise remove the mapping,
push the frame on the free list, `replacer_->Remove`, reset the frame, and
deallocate. -/
def BPM.deletePage (b : BPM) (pid : Int) : Bool × BPM :=
  if pid = INVALID_PAGE_ID then (true, b)
  else
    match assocFindN b.page_table pid with
    | none => (true, b.deallocatePage pid)
    | some fid =>
        let p := b.frame fid
        if p.pin_count > 0 then (false, b)
        else
          (true,
           ({ b with
              page_table := assocEraseN b.page_table pid
              free_list := b.free_list ++ [fid]
              replacer := b.replacer.remove (fid : Int)
              pages := b.pages.set fid ⟨INVALID_PAGE_ID, 0, 0, false⟩
            }).deallocatePage pid)

/-! ## Page guards (`src/storage/page/page_guard.cpp`)

The guard methods live in the cpp file; the tiny helpers `HasValidState`,
`CleanupState` and `PageId` are header-only and the header is not in the
repository snapshot, so they are modelled from the spec: a guard is
*valid* while it owns its references (`bpm_` and `page_` both non-null)
and *empty* once ownership has been moved out or dropped (all members
reset).  `PageId()` reads the referenced frame's `page_id_`.

Pointer identity (`this != &that` in the move operators) is encoded by an
explicit `self : Bool` argument: `self = true` is the aliased call, in
which the operators' bodies are skipped. -/

/-- Source: `BasicPageGuard` data: whether `bpm_` is non-null, the referenced
frame (`page_` as a frame index, `none` for `nullptr`), and `is_dirty_`. -/
structure BasicPageGuard where
  has_bpm : Bool
  page : Option Nat
  is_dirty : Bool
deriving DecidableEq, Repr

/-- Latch/unpin events emitted by guard operations, in issue order. -/
inductive GEvent where
  | unpin (pid : Int) (d : Bool)
  | runlatch (pid : Int)
  | wunlatch (pid : Int)
deriving DecidableEq, Repr

/-- Modelled from the spec: `BasicPageGuard::HasValidState` (header-only,
missing from the snapshot) — a guard is valid while it owns its manager
and page references. -/
def BasicPageGuard.hasValidState (g : BasicPageGuard) : Bool :=
  g.has_bpm && g.page.isSome

/-- Modelled from the spec: `BasicPageGuard::CleanupState` (header-only,
missing from the snapshot) — resets the guard to the empty state. -/
def BasicPageGuard.cleanupState (_g : BasicPageGuard) : BasicPageGuard :=
  ⟨false, none, false⟩

/-- Source: `PageId()`: the referenced frame's `page_id_`. -/
def BasicPageGuard.pageId (g : BasicPageGuard) (b : BPM) : Int :=
  (b.frame (g.page.getD 0)).page_id

/-- Source: `BasicPageGuard::Drop`: unpin through the manager when valid, then
`CleanupState` unconditionally. -/
def BasicPageGuard.drop (g : BasicPageGuard) (b : BPM) :
    BasicPageGuard × BPM × List GEvent :=
  if g.hasValidState then
    (g.cleanupState, (b.unpinPage (g.pageId b) g.is_dirty).2,
     [GEvent.unpin (g.pageId b) g.is_dirty])
  else (g.cleanupState, b, [])

/-- Source: `BasicPageGuard::operator=(BasicPageGuard &&)`: with `self = true`
(`this == &that`) the body is skipped; otherwise the destination unpins its
current page when valid, takes over the source's members, and the source is
cleaned up.  Returns (destination, source, manager, events). -/
def BasicPageGuard.moveAssign (dst src : BasicPageGuard) (b : BPM)
    (self : Bool) : BasicPageGuard × BasicPageGuard × BPM × List GEvent :=
  if self then (dst, src, b, [])
  else
    (⟨src.has_bpm, src.page, src.is_dirty⟩, src.cleanupState,
     (if dst.hasValidState then (b.unpinPage (dst.pageId b) dst.is_dirty).2
      else b),
     (if dst.hasValidState then [GEvent.unpin (dst.pageId b) dst.is_dirty]
      else []))

/-- Source: `ReadPageGuard` composes a basic guard (latch state it holds is
implicit in the events it emits). -/
structure ReadPageGuard where
  guard : BasicPageGuard
deriving DecidableEq, Repr

/-- Source: `ReadPageGuard::Drop`: when the inner guard is valid, release the
page's shared latch (`RUnlatch`) and then drop the inner guard; otherwise
nothing happens at all. -/
def ReadPageGuard.drop (g : ReadPageGuard) (b : BPM) :
    ReadPageGuard × BPM × List GEvent :=
  if g.guard.hasValidState then
    (⟨(g.guard.drop b).1⟩, (g.guard.drop b).2.1,
     GEvent.runlatch (g.guard.pageId b) :: (g.guard.drop b).2.2)
  else (g, b, [])

/-- Source: `ReadPageGuard::operator=(ReadPageGuard &&)`: skip on self-assignment,
else `Drop()` then move-assign the inner guards (distinct objects). -/
def ReadPageGuard.moveAssign (dst src : ReadPageGuard) (b : BPM)
    (self : Bool) : ReadPageGuard × ReadPageGuard × BPM × List GEvent :=
  if self then (dst, src, b, [])
  else
    (⟨(BasicPageGuard.moveAssign (dst.drop b).1.guard src.guard
        (dst.drop b).2.1 false).1⟩,
     ⟨(BasicPageGuard.moveAssign (dst.drop b).1.guard src.guard
        (dst.drop b).2.1 false).2.1⟩,
     (BasicPageGuard.moveAssign (dst.drop b).1.guard src.guard
        (dst.drop b).2.1 false).2.2.1,
     (dst.drop b).2.2 ++
       (BasicPageGuard.moveAssign (dst.drop b).1.guard src.guard
          (dst.drop b).2.1 false).2.2.2)

/-- Source: `WritePageGuard` composes a basic guard. -/
structure WritePageGuard where
  guard : BasicPageGuard
deriving DecidableEq, Repr

/-- Source: `WritePageGuard::Drop`: as the read guard, with `WUnlatch`. -/
def WritePageGuard.drop (g : WritePageGuard) (b : BPM) :
    WritePageGuard × BPM × List GEvent :=
  if g.guard.hasValidState then
    (⟨(g.guard.drop b).1⟩, (g.guard.drop b).2.1,
     GEvent.wunlatch (g.guard.pageId b) :: (g.guard.drop b).2.2)
  else (g, b, [])

/-- Source: `WritePageGuard::operator=(WritePageGuard &&)`. -/
def WritePageGuard.moveAssign (dst src : WritePageGuard) (b : BPM)
    (self : Bool) : WritePageGuard × WritePageGuard × BPM × List GEvent :=
  if self then (dst, src, b, [])
  else
    (⟨(BasicPageGuard.moveAssign (dst.drop b).1.guard src.guard
        (dst.drop b).2.1 false).1⟩,
     ⟨(BasicPageGuard.moveAssign (dst.drop b).1.guard src.guard
        (dst.drop b).2.1 false).2.1⟩,
     (BasicPageGuard.moveAssign (dst.drop b).1.guard src.guard
        (dst.drop b).2.1 false).2.2.1,
     (dst.drop b).2.2 ++
       (BasicPageGuard.moveAssign (dst.drop b).1.guard src.guard
          (dst.drop b).2.1 false).2.2.2)

/-! ### Guard factories

The four factories in the source return `{this, nullptr}` — a guard whose
`page_` is null — and perform no fetch, no allocation and no pin change. -/

/-- Source: `BufferPoolManager::FetchPageBasic(page_id)`: `return {this, nullptr}`. -/
def BPM.fetchPageBasic (b : BPM) (_pid : Int) : BasicPageGuard × BPM :=
  (⟨true, none, false⟩, b)

/-- Source: `BufferPoolManager::FetchPageRead(page_id)`: `return {this, nullptr}`. -/
def BPM.fetchPageRead (b : BPM) (_pid : Int) : ReadPageGuard × BPM :=
  (⟨⟨true, none, false⟩⟩, b)

/-- Source: `BufferPoolManager::FetchPageWrite(page_id)`: `return {this, nullptr}`. -/
def BPM.fetchPageWrite (b : BPM) (_pid : Int) : WritePageGuard × BPM :=
  (⟨⟨true, none, false⟩⟩, b)

/-- Source: `BufferPoolManager::NewPageGuarded(page_id)`: `return {this, nullptr}`
(the out-parameter is not written, no page is allocated). -/
def BPM.newPageGuarded (b : BPM) : BasicPageGuard × BPM :=
  (⟨true, none, false⟩, b)

/-! ## General helper lemmas -/

/-- Setting an index to the value it already holds (via `getD`) is the
identity (out-of-range `set` is already a no-op). -/
theorem listSet_getD_self {α : Type} [Inhabited α] (l : List α) (n : Nat) :
    l.set n (l.getD n default) = l := by
  induction l generalizing n with
  | nil => rfl
  | cons x xs ih =>
      cases n with
      | zero => rfl
      | succ m => simpa using ih m

/-- Reading back an index just set with `getD`. -/
theorem listGetD_set_self {α : Type} [Inhabited α] (l : List α) (n : Nat)
    (a : α) (h : n < l.length) : (l.set n a).getD n default = a := by
  induction l generalizing n with
  | nil => simp at h
  | cons x xs ih =>
      cases n with
      | zero => rfl
      | succ m => simpa using ih m (by simpa using h)

/-- A key absent from the key column is not found. -/
theorem assocFind_eq_none_of_not_mem {β : Type} (m : List (Int × β))
    (key : Int) (h : key ∉ m.map Prod.fst) : assocFind m key = none := by
  induction m with
  | nil => rfl
  | cons p rest ih =>
      obtain ⟨k, v⟩ := p
      simp only [List.map_cons, List.mem_cons] at h
      push_neg at h
      have hk : ¬ (k = key) := fun hk => h.1 hk.symm
      simp only [assocFind, if_neg hk]
      exact ih h.2

/-- Erasing a key from a duplicate-free association list removes it
entirely. -/
theorem assocFind_assocErase_self {β : Type} (m : List (Int × β))
    (key : Int) (h : (m.map Prod.fst).Nodup) :
    assocFind (assocErase m key) key = none := by
  induction m with
  | nil => rfl
  | cons p rest ih =>
      obtain ⟨k, v⟩ := p
      simp only [List.map_cons, List.nodup_cons] at h
      by_cases hk : k = key
      · simp only [assocErase, if_pos hk]
        exact assocFind_eq_none_of_not_mem rest key (hk ▸ h.1)
      · simp only [assocErase, if_neg hk, assocFind, if_neg hk]
        exact ih h.2

/-! ## C1: the S3 eviction scenario -/

/-- The replacer state after the S3 access sequence
`1,2,3,4,5,1,2,3,1,2,3,4` with `K = 2` on a 7-frame replacer (every node
is created evictable, and nothing toggles evictability here). -/
def s3Replacer : LRUKReplacer :=
  (LRUKReplacer.init 7 2).recordAll [1, 2, 3, 4, 5, 1, 2, 3, 1, 2, 3, 4]

/-- C1.  The claim states the five successive evictions after the S3
sequence return `5, 4, 1, 2, 3`.  The code instead returns
`5, 1, 2, 3, 4`: the first access of a frame records no timestamp, and on
the access that takes a node past `K` the oldest retained timestamp is
popped after the push, so the cache list is keyed by the most recent
access rather than by the K-th most recent one — frame 4's key (its second
access, the latest of all) orders it last instead of first among the cache
nodes. -/
theorem c1_s3_eviction_order :
    s3Replacer.evictSeq 5 = [some 5, some 1, some 2, some 3, some 4] ∧
      s3Replacer.evictSeq 5 ≠ [some 5, some 4, some 1, some 2, some 3] := by
  constructor
  · rfl
  · decide

/-! ## C4: the record_access bounds check -/

/-- A two-frame replacer with `K = 2`, fresh from the constructor. -/
def rC4 : LRUKReplacer := LRUKReplacer.init 2 2

/-- C4 counterexample.  The claim says `record_access(frame_id)` is a
silent no-op for every `frame_id ≥ num_frames`; at `frame_id = num_frames`
(here `2`) the source's strict `frame_id > replacer_size_` check admits
the frame and a node is created, so the state changes. -/
theorem c4_boundary_frame_is_not_ignored :
    ¬ (rC4.recordAccess 2 = rC4) := by decide

/-- C4 (amended).  For every `frame_id > num_frames` the call returns with
the whole replacer state unchanged. -/
theorem c4_out_of_bounds_record_access_is_noop (r : LRUKReplacer) (fid : Int)
    (h : (r.replacer_size : Int) < fid) : r.recordAccess fid = r := by
  unfold LRUKReplacer.recordAccess
  rw [if_pos h]

/-- C4 witness: frame `3` on the two-frame replacer. -/
theorem c4_out_of_bounds_record_access_is_noop_witness :
    ((2 : Nat) : Int) < 3 ∧ rC4.recordAccess 3 = rC4 :=
  ⟨by decide, c4_out_of_bounds_record_access_is_noop rC4 3 (by decide)⟩

/-! ## C5: timestamp monotonicity across record_access -/

/-- A seven-frame replacer with `K = 2`, fresh from the constructor. -/
def rC5 : LRUKReplacer := LRUKReplacer.init 7 2

/-- C5.  The claim states every `record_access` on an in-bounds frame
strictly increases `current_timestamp`, the first access of an unknown
frame included.  In the source both `history_.push_back(current_timestamp_)`
and `current_timestamp_++` sit in the known-frame branch only: the first
access of frame `1` (in bounds, `1 ≤ 7`) leaves `current_timestamp` at `0`
and stores an empty history, while only the second access bumps it. -/
theorem c5_first_access_does_not_bump_timestamp :
    (rC5.recordAccess 1).current_timestamp = rC5.current_timestamp ∧
      assocFind (rC5.recordAccess 1).node_store 1 =
        some ⟨1, [], true⟩ ∧
      ((rC5.recordAccess 1).recordAccess 1).current_timestamp =
        rC5.current_timestamp + 1 := by
  refine ⟨rfl, rfl, rfl⟩

/-! ## C2: the guard factories -/

/-- A three-frame pool (`K = 2`) holding one freshly allocated page:
page `0` resident in frame `2` with `pin_count = 1`. -/
def bC2 : BPM := (BPM.init 3 2).newPage.2.1

/-- C2.  The claim states each factory either indicates failure or hands
out a guard pinning the requested (or new) page.  The source's four
factories all `return {this, nullptr}`: with page `0` resident and pinned
once, each returns a page-less guard, leaves the manager (pin counts
included) untouched, allocates nothing, and dropping the returned guard
performs no unpin and no latch release. -/
theorem c2_guard_factories_hold_no_pin :
    assocFindN bC2.page_table 0 = some 2 ∧ (bC2.frame 2).pin_count = 1 ∧
      (bC2.fetchPageBasic 0).1.page = none ∧ (bC2.fetchPageBasic 0).2 = bC2 ∧
      BasicPageGuard.drop (bC2.fetchPageBasic 0).1 bC2 =
        (⟨false, none, false⟩, bC2, []) ∧
      (bC2.fetchPageRead 0).2 = bC2 ∧
      ReadPageGuard.drop (bC2.fetchPageRead 0).1 bC2 =
        ((bC2.fetchPageRead 0).1, bC2, []) ∧
      (bC2.fetchPageWrite 0).2 = bC2 ∧
      WritePageGuard.drop (bC2.fetchPageWrite 0).1 bC2 =
        ((bC2.fetchPageWrite 0).1, bC2, []) ∧
      bC2.newPageGuarded = (⟨true, none, false⟩, bC2) := by
  decide

/-! ## C3: unpin on a zero-pinned page -/

/-- A two-frame pool after `new_page` twice and `unpin(0, false)`:
page `0` sits in frame `1` with `pin_count = 0` and a clean dirty bit. -/
def bC3 : BPM :=
  (((BPM.init 2 2).newPage.2.1).newPage.2.1.unpinPage 0 false).2

/-- C3 counterexample.  The claim says `unpin_page` on a resident page
with `pin_count ≤ 0` returns false and leaves the entire state unchanged,
for both dirty flags.  On `bC3` (page `0`, pin `0`, clean),
`unpin_page(0, true)` returns false yet flips the frame's dirty bit to
true: the source ORs the flag into the frame before the pin check. -/
theorem c3_underflow_unpin_mutates_dirty :
    (bC3.frame 1).pin_count = 0 ∧ (bC3.frame 1).is_dirty = false ∧
      (bC3.unpinPage 0 true).1 = false ∧
      ((bC3.unpinPage 0 true).2.frame 1).is_dirty = true := by
  decide

/-- C3 (amended).  On a resident page with `pin_count ≤ 0`, `unpin_page`
returns false and the only state change is the frame's dirty bit being
OR-ed with the passed flag; in particular with `dirty = false` the state
is entirely unchanged. -/
theorem c3_underflow_unpin_effect (b : BPM) (pid : Int) (fid : Nat)
    (d : Bool) (hpid : pid ≠ INVALID_PAGE_ID)
    (hres : assocFindN b.page_table pid = some fid)
    (hpin : (b.frame fid).pin_count ≤ 0) :
    b.unpinPage pid d =
      (false,
       { b with pages := b.pages.set fid { b.frame fid with is_dirty := (b.frame fid).is_dirty || d } }) ∧
      (d = false → (b.unpinPage pid d).2 = b) := by
  have key : b.unpinPage pid d =
      (false,
       { b with pages := b.pages.set fid { b.frame fid with is_dirty := (b.frame fid).is_dirty || d } }) := by
    unfold BPM.unpinPage
    rw [if_neg hpid, hres]
    simp only [BPM.frame] at hpin ⊢
    rw [if_pos hpin]
  refine ⟨key, fun hd => ?_⟩
  subst hd
  rw [key]
  show { b with pages := b.pages.set fid { b.frame fid with is_dirty := (b.frame fid).is_dirty || false } } = b
  have : { b.frame fid with is_dirty := (b.frame fid).is_dirty || false } =
      b.frame fid := by
    simp
  rw [this, BPM.frame, listSet_getD_self]

/-- C3 witness: the amended statement applied to `bC3`, page `0`,
frame `1`, `dirty = true`. -/
theorem c3_underflow_unpin_effect_witness :
    assocFindN bC3.page_table 0 = some 1 ∧ (bC3.frame 1).pin_count ≤ 0 ∧
      bC3.unpinPage 0 true =
        (false,
         { bC3 with pages := bC3.pages.set 1 { bC3.frame 1 with is_dirty := (bC3.frame 1).is_dirty || true } }) :=
  ⟨by decide, by decide,
   (c3_underflow_unpin_effect bC3 0 1 true (by decide) (by decide)
     (by decide)).1⟩

/-! ## C6: writeback of dirty victims on frame reuse -/

/-- Reading back a set index that lies beyond the list yields the
default. -/
theorem listGetD_set_out {α : Type} [Inhabited α] (l : List α) (n : Nat)
    (a : α) (h : ¬ n < l.length) : (l.set n a).getD n default = default := by
  induction l generalizing n with
  | nil => rfl
  | cons x xs ih =>
      cases n with
      | zero => exact absurd (by simp) h
      | succ m => simpa using ih m (by simpa using h)

/-- The dirty bit read back after installing a clean page is false,
whatever the index. -/
theorem set_clean_frame_is_clean (l : List Page) (n : Nat) (p : Page)
    (hp : p.is_dirty = false) :
    ((l.set n p).getD n default).is_dirty = false := by
  by_cases h : n < l.length
  · rw [listGetD_set_self _ _ _ h]; exact hp
  · rw [listGetD_set_out _ _ _ h]; rfl

/-- Frame acquisition touches only the free list or the replacer: the
frame array, the page table, the allocation counter and the disk are those
of the input state. -/
theorem acquireFrame_preserves (b : BPM) (fid : Nat) (b1 : BPM)
    (h : b.acquireFrame = some (fid, b1)) :
    b1.pages = b.pages ∧ b1.page_table = b.page_table ∧
      b1.disk = b.disk ∧ b1.next_page_id = b.next_page_id := by
  unfold BPM.acquireFrame at h
  by_cases hfl : b.free_list.isEmpty
  · rw [if_pos hfl] at h
    cases hev : b.replacer.evict with
    | mk res r' =>
        rw [hev] at h
        cases res with
        | none => simp at h
        | some f =>
            simp only [Option.some.injEq, Prod.mk.injEq] at h
            rw [← h.2]
            exact ⟨rfl, rfl, rfl, rfl⟩
  · rw [if_neg hfl] at h
    simp only [Option.some.injEq, Prod.mk.injEq] at h
    rw [← h.2]
    exact ⟨rfl, rfl, rfl, rfl⟩

/-- The recycling step's outputs: the disk trace is exactly one write of
the old page under its old id when the frame was dirty and empty
otherwise, and the frame's dirty bit is clear afterwards. -/
theorem recycleFrame_spec (b : BPM) (fid : Nat) :
    (b.recycleFrame fid).2 =
      (if (b.frame fid).is_dirty
       then [DiskOp.write (b.frame fid).page_id (b.frame fid).data]
       else []) ∧
      ((b.recycleFrame fid).1.frame fid).is_dirty = false := by
  by_cases hd : (b.frame fid).is_dirty
  · simp only [BPM.recycleFrame, if_pos hd]
    exact ⟨trivial, set_clean_frame_is_clean _ _ _ rfl⟩
  · simp only [BPM.recycleFrame, if_neg hd]
    refine ⟨trivial, ?_⟩
    simpa [BPM.frame] using hd

/-- Reduction of `NewPage` when no frame is available. -/
theorem newPage_none (b : BPM) (hacq : b.acquireFrame = none) :
    b.newPage = (none, b, []) := by
  unfold BPM.newPage
  rw [hacq]

/-- Reduction of `NewPage` once a frame has been acquired. -/
theorem newPage_acquired (b : BPM) (fid : Nat) (b1 : BPM)
    (hacq : b.acquireFrame = some (fid, b1)) :
    b.newPage =
      (some ((b1.recycleFrame fid).1.next_page_id, fid),
       { (b1.recycleFrame fid).1 with
         next_page_id := (b1.recycleFrame fid).1.next_page_id + 1
         pages := (b1.recycleFrame fid).1.pages.set fid
           ⟨(b1.recycleFrame fid).1.next_page_id, 0, 1, false⟩
         page_table := assocSetN (b1.recycleFrame fid).1.page_table
           (b1.recycleFrame fid).1.next_page_id fid
         replacer := (((b1.recycleFrame fid).1.replacer.recordAccess
           (fid : Int)).setEvictable (fid : Int) false) },
       (b1.recycleFrame fid).2) := by
  unfold BPM.newPage
  rw [hacq]

/-- Reduction of a missing-page `FetchPage` once a frame has been
acquired. -/
theorem fetchPage_miss_acquired (b : BPM) (pid : Int) (fid : Nat) (b1 : BPM)
    (hpid : pid ≠ INVALID_PAGE_ID)
    (hmiss : assocFindN b.page_table pid = none)
    (hacq : b.acquireFrame = some (fid, b1)) :
    b.fetchPage pid =
      (some fid,
       { (b1.recycleFrame fid).1 with
         pages := (b1.recycleFrame fid).1.pages.set fid
           ⟨pid, (assocFindN (b1.recycleFrame fid).1.disk pid).getD 0, 1, false⟩
         page_table := assocSetN (b1.recycleFrame fid).1.page_table pid fid
         replacer := (((b1.recycleFrame fid).1.replacer.recordAccess
           (fid : Int)).setEvictable (fid : Int) false) },
       (b1.recycleFrame fid).2 ++ [DiskOp.read pid]) := by
  unfold BPM.fetchPage
  rw [if_neg hpid, hmiss, hacq]

/-- C6.  Whenever `new_page` or a missing-page `fetch_page` reuses a frame
(free-list or evicted), the disk trace holds exactly one write of the old
buffer under the old `page_id` when the victim was dirty and no write when
it was clean; `fetch_page` additionally ends with the read of the new
page, and the reused frame ends up clean either way. -/
theorem c6_dirty_writeback (b : BPM) (pid : Int) :
    (∀ npid fid bres tr, b.newPage = (some (npid, fid), bres, tr) →
       tr = (if (b.frame fid).is_dirty
             then [DiskOp.write (b.frame fid).page_id (b.frame fid).data]
             else []) ∧
         (bres.frame fid).is_dirty = false) ∧
    (∀ fid bres tr, pid ≠ INVALID_PAGE_ID →
       assocFindN b.page_table pid = none →
       b.fetchPage pid = (some fid, bres, tr) →
       tr = (if (b.frame fid).is_dirty
             then [DiskOp.write (b.frame fid).page_id (b.frame fid).data]
             else []) ++ [DiskOp.read pid] ∧
         (bres.frame fid).is_dirty = false) := by
  constructor
  · intro npid fid bres tr h
    cases hacq : b.acquireFrame with
    | none =>
        rw [newPage_none b hacq] at h
        simp at h
    | some pr =>
        obtain ⟨fid0, b1⟩ := pr
        rw [newPage_acquired b fid0 b1 hacq] at h
        simp only [Prod.mk.injEq, Option.some.injEq] at h
        obtain ⟨⟨hnpid, hfid⟩, hbres, htr⟩ := h
        subst hfid
        obtain ⟨hp, -, -, -⟩ := acquireFrame_preserves b fid0 b1 hacq
        have hfr : b1.frame fid0 = b.frame fid0 := by
          rw [BPM.frame, BPM.frame, hp]
        obtain ⟨h1, h2⟩ := recycleFrame_spec b1 fid0
        constructor
        · rw [← htr, h1, hfr]
        · rw [← hbres]
          show (((b1.recycleFrame fid0).1.pages.set fid0
              ⟨(b1.recycleFrame fid0).1.next_page_id, 0, 1, false⟩).getD
                fid0 default).is_dirty = false
          exact set_clean_frame_is_clean _ _ _ rfl
  · intro fid bres tr hpid hmiss h
    cases hacq : b.acquireFrame with
    | none =>
        unfold BPM.fetchPage at h
        rw [if_neg hpid, hmiss, hacq] at h
        simp at h
    | some pr =>
        obtain ⟨fid0, b1⟩ := pr
        rw [fetchPage_miss_acquired b pid fid0 b1 hpid hmiss hacq] at h
        simp only [Prod.mk.injEq, Option.some.injEq] at h
        obtain ⟨hfid, hbres, htr⟩ := h
        subst hfid
        obtain ⟨hp, -, -, -⟩ := acquireFrame_preserves b fid0 b1 hacq
        have hfr : b1.frame fid0 = b.frame fid0 := by
          rw [BPM.frame, BPM.frame, hp]
        obtain ⟨h1, h2⟩ := recycleFrame_spec b1 fid0
        constructor
        · rw [← htr, h1, hfr]
        · rw [← hbres]
          show (((b1.recycleFrame fid0).1.pages.set fid0
              ⟨pid, (assocFindN (b1.recycleFrame fid0).1.disk pid).getD 0,
               1, false⟩).getD fid0 default).is_dirty = false
          exact set_clean_frame_is_clean _ _ _ rfl

/-- The S2 state: a one-frame pool after `new_page` and a dirty
`unpin(0, true)`. -/
def bC6 : BPM := ((BPM.init 1 2).newPage.2.1.unpinPage 0 true).2

/-- A one-frame pool with a clean unpinned page `1` resident (obtained
from `bC6` by reusing the frame and unpinning clean). -/
def bC6c : BPM := (bC6.newPage.2.1.unpinPage 1 false).2

/-- C6 witness: on the S2 state the second `new_page` writes back page
`0`'s buffer (one write, nothing else); on the clean state a fetch miss
of page `0` issues no write, just the read. -/
theorem c6_dirty_writeback_witness :
    bC6.newPage.2.2 = [DiskOp.write 0 0] ∧
      (bC6c.fetchPage 0).2.2 = [DiskOp.read 0] := by
  constructor
  · have h := (c6_dirty_writeback bC6 0).1 1 0 bC6.newPage.2.1 bC6.newPage.2.2
      (by decide)
    rw [h.1]
    decide
  · have h := (c6_dirty_writeback bC6c 0).2 0 (bC6c.fetchPage 0).2.1
      (bC6c.fetchPage 0).2.2 (by decide) (by decide) (by decide)
    rw [h.1]
    decide

/-! ## C7: flush_page -/

/-- C7.  `flush_page` returns false and changes nothing on
`INVALID_PAGE_ID` or a non-resident page; on a resident page it writes the
buffer unconditionally (dirty or not), clears the dirty bit, returns true,
and every other component — the frame's pin count and id, the page table,
the free list, the replacer — is untouched. -/
theorem c7_flush_page (b : BPM) (pid : Int) :
    ((pid = INVALID_PAGE_ID ∨ assocFindN b.page_table pid = none) →
       b.flushPage pid = (false, b, [])) ∧
    (∀ fid, pid ≠ INVALID_PAGE_ID → assocFindN b.page_table pid = some fid →
       b.flushPage pid =
         (true,
          { b with
            disk := assocSetN b.disk pid (b.frame fid).data
            pages := b.pages.set fid { b.frame fid with is_dirty := false } },
          [DiskOp.write pid (b.frame fid).data])) := by
  constructor
  · intro h
    by_cases hpid : pid = INVALID_PAGE_ID
    · unfold BPM.flushPage
      rw [if_pos hpid]
    · have hnone : assocFindN b.page_table pid = none := h.resolve_left hpid
      unfold BPM.flushPage
      rw [if_neg hpid, hnone]
  · intro fid hpid hres
    unfold BPM.flushPage
    rw [if_neg hpid, hres]

/-- C7 witness: flushing the missing page `5` fails without effect;
flushing the resident clean page `0` (frame `2` of `bC2`) writes its
buffer anyway and succeeds. -/
theorem c7_flush_page_witness :
    bC2.flushPage 5 = (false, bC2, []) ∧
      bC2.flushPage 0 =
        (true,
         { bC2 with
           disk := assocSetN bC2.disk 0 (bC2.frame 2).data
           pages := bC2.pages.set 2 { bC2.frame 2 with is_dirty := false } },
         [DiskOp.write 0 (bC2.frame 2).data]) :=
  ⟨(c7_flush_page bC2 5).1 (Or.inr (by decide)),
   (c7_flush_page bC2 0).2 2 (by decide) (by decide)⟩

/-! ## C8: delete_page -/

/-- C8.  `delete_page`: vacuous success on `INVALID_PAGE_ID` (no frame
touched); success with no state change on a non-resident page (the id
deallocation is the source's no-op placeholder); failure with no state
change on a resident pinned page; and on a resident unpinned page the
mapping is erased, the frame index is pushed on the free list, the
replacer's `Remove` runs for that frame (dropping its node entirely when
it was tracked evictable under duplicate-free keys), and the frame is
reset to `⟨INVALID, zeroed, pin 0, clean⟩`. -/
theorem c8_delete_page (b : BPM) (pid : Int) :
    (pid = INVALID_PAGE_ID → b.deletePage pid = (true, b)) ∧
    (pid ≠ INVALID_PAGE_ID → assocFindN b.page_table pid = none →
       b.deletePage pid = (true, b)) ∧
    (∀ fid, pid ≠ INVALID_PAGE_ID → assocFindN b.page_table pid = some fid →
       (b.frame fid).pin_count > 0 → b.deletePage pid = (false, b)) ∧
    (∀ fid, pid ≠ INVALID_PAGE_ID → assocFindN b.page_table pid = some fid →
       ¬ (b.frame fid).pin_count > 0 →
       b.deletePage pid =
           (true,
            { b with
              page_table := assocEraseN b.page_table pid
              free_list := b.free_list ++ [fid]
              replacer := b.replacer.remove (fid : Int)
              pages := b.pages.set fid ⟨INVALID_PAGE_ID, 0, 0, false⟩ }) ∧
         (∀ node, (b.replacer.node_store.map Prod.fst).Nodup →
            assocFind b.replacer.node_store (fid : Int) = some node →
            node.is_evictable = true →
            assocFind (b.deletePage pid).2.replacer.node_store (fid : Int) =
              none)) := by
  refine ⟨?_, ?_, ?_, ?_⟩
  · intro hpid
    unfold BPM.deletePage
    rw [if_pos hpid]
  · intro hpid hnone
    unfold BPM.deletePage
    rw [if_neg hpid, hnone]
    rfl
  · intro fid hpid hres hpin
    unfold BPM.deletePage
    rw [if_neg hpid, hres]
    simp only [if_pos hpin]
  · intro fid hpid hres hpin
    have key : b.deletePage pid =
        (true,
         { b with
           page_table := assocEraseN b.page_table pid
           free_list := b.free_list ++ [fid]
           replacer := b.replacer.remove (fid : Int)
           pages := b.pages.set fid ⟨INVALID_PAGE_ID, 0, 0, false⟩ }) := by
      unfold BPM.deletePage
      rw [if_neg hpid, hres]
      simp only [if_neg hpin]
      rfl
    refine ⟨key, fun node hnodup hfind hev => ?_⟩
    rw [key]
    show assocFind (b.replacer.remove (fid : Int)).node_store (fid : Int) = none
    unfold LRUKReplacer.remove
    rw [hfind]
    simp only [hev, Bool.not_true, Bool.false_eq_true, if_false]
    exact assocFind_assocErase_self _ _ hnodup

/-- C8 witness: all four branches on concrete pools — `INVALID` (`-1`),
the absent page `9`, the pinned page `0` of `bC2`, and the unpinned
page `0` of `bC3` (frame `1`, which the replacer tracks evictable). -/
theorem c8_delete_page_witness :
    bC2.deletePage (-1) = (true, bC2) ∧
      bC2.deletePage 9 = (true, bC2) ∧
      bC2.deletePage 0 = (false, bC2) ∧
      (bC3.deletePage 0).1 = true ∧
      assocFind (bC3.deletePage 0).2.replacer.node_store 1 = none :=
  ⟨(c8_delete_page bC2 (-1)).1 (by decide),
   (c8_delete_page bC2 9).2.1 (by decide) (by decide),
   (c8_delete_page bC2 0).2.2.1 2 (by decide) (by decide) (by decide),
   by rw [((c8_delete_page bC3 0).2.2.2 1 (by decide) (by decide)
       (by decide)).1],
   ((c8_delete_page bC3 0).2.2.2 1 (by decide) (by decide) (by decide)).2
     ⟨1, [], true⟩ (by decide) (by decide) (by decide)⟩

/-! ## C9: idempotent drop -/

/-- An emptied guard is invalid. -/
theorem cleanupState_not_valid (g : BasicPageGuard) :
    g.cleanupState.hasValidState = false := rfl

/-- Emptying twice equals emptying once. -/
theorem cleanupState_idem (g : BasicPageGuard) :
    g.cleanupState.cleanupState = g.cleanupState := rfl

/-- C9.  For each guard flavour, dropping the result of a drop is a
no-op: the guard and manager are unchanged and no unpin or latch-release
event is emitted, so two drops have exactly the effect of one (the
destructor's drop after an explicit drop included). -/
theorem c9_guard_drop_idempotent (gb : BasicPageGuard) (gr : ReadPageGuard)
    (gw : WritePageGuard) (b : BPM) :
    (gb.drop b).1.drop (gb.drop b).2.1 = ((gb.drop b).1, (gb.drop b).2.1, []) ∧
      (gr.drop b).1.drop (gr.drop b).2.1 =
        ((gr.drop b).1, (gr.drop b).2.1, []) ∧
      (gw.drop b).1.drop (gw.drop b).2.1 =
        ((gw.drop b).1, (gw.drop b).2.1, []) := by
  refine ⟨?_, ?_, ?_⟩
  · by_cases hv : gb.hasValidState
    · simp [BasicPageGuard.drop, hv, cleanupState_not_valid,
        cleanupState_idem]
    · simp [BasicPageGuard.drop, hv, cleanupState_not_valid,
        cleanupState_idem]
  · by_cases hv : gr.guard.hasValidState
    · simp [ReadPageGuard.drop, BasicPageGuard.drop, hv,
        cleanupState_not_valid]
    · simp [ReadPageGuard.drop, hv]
  · by_cases hv : gw.guard.hasValidState
    · simp [WritePageGuard.drop, BasicPageGuard.drop, hv,
        cleanupState_not_valid]
    · simp [WritePageGuard.drop, hv]

/-! ## C10: move assignment and self-assignment -/

/-- C10.  Self-move-assignment (`this == &that`, the guarded branch) is a
complete no-op for all three guard flavours: guard, manager and event
trace are untouched.  Move assignment into a *distinct* valid guard, by
contrast, first drops that guard's ownership: the basic guard emits the
unpin of its old page, and the read/write guards release their latch and
then unpin. -/
theorem c10_guard_self_move_assign (gb : BasicPageGuard)
    (gr : ReadPageGuard) (gw : WritePageGuard) (db sb : BasicPageGuard)
    (dr sr : ReadPageGuard) (dw sw : WritePageGuard) (b : BPM) :
    BasicPageGuard.moveAssign gb gb b true = (gb, gb, b, []) ∧
      ReadPageGuard.moveAssign gr gr b true = (gr, gr, b, []) ∧
      WritePageGuard.moveAssign gw gw b true = (gw, gw, b, []) ∧
      (db.hasValidState = true →
         (BasicPageGuard.moveAssign db sb b false).2.2.2 =
           [GEvent.unpin (db.pageId b) db.is_dirty]) ∧
      (dr.guard.hasValidState = true →
         (ReadPageGuard.moveAssign dr sr b false).2.2.2 =
           [GEvent.runlatch (dr.guard.pageId b),
            GEvent.unpin (dr.guard.pageId b) dr.guard.is_dirty]) ∧
      (dw.guard.hasValidState = true →
         (WritePageGuard.moveAssign dw sw b false).2.2.2 =
           [GEvent.wunlatch (dw.guard.pageId b),
            GEvent.unpin (dw.guard.pageId b) dw.guard.is_dirty]) := by
  refine ⟨rfl, rfl, rfl, ?_, ?_, ?_⟩
  · intro hv
    simp [BasicPageGuard.moveAssign, hv]
  · intro hv
    simp [ReadPageGuard.moveAssign, ReadPageGuard.drop, hv,
      BasicPageGuard.moveAssign, BasicPageGuard.drop,
      cleanupState_not_valid]
  · intro hv
    simp [WritePageGuard.moveAssign, WritePageGuard.drop, hv,
      BasicPageGuard.moveAssign, BasicPageGuard.drop,
      cleanupState_not_valid]

/-- A valid guard on frame `2` of `bC2` (which holds page `0`). -/
def gC10 : BasicPageGuard := ⟨true, some 2, false⟩

/-- C10 witness: the distinct-assignment branches instantiated on `bC2`
with the valid guard `gC10` (and read/write guards wrapping it). -/
theorem c10_guard_self_move_assign_witness :
    (BasicPageGuard.moveAssign gC10 ⟨true, some 2, true⟩ bC2 false).2.2.2 =
        [GEvent.unpin (gC10.pageId bC2) gC10.is_dirty] ∧
      (ReadPageGuard.moveAssign ⟨gC10⟩ ⟨gC10⟩ bC2 false).2.2.2 =
        [GEvent.runlatch (gC10.pageId bC2),
         GEvent.unpin (gC10.pageId bC2) gC10.is_dirty] ∧
      (WritePageGuard.moveAssign ⟨gC10⟩ ⟨gC10⟩ bC2 false).2.2.2 =
        [GEvent.wunlatch (gC10.pageId bC2),
         GEvent.unpin (gC10.pageId bC2) gC10.is_dirty] :=
  ⟨(c10_guard_self_move_assign gC10 ⟨gC10⟩ ⟨gC10⟩ gC10 ⟨true, some 2, true⟩
      ⟨gC10⟩ ⟨gC10⟩ ⟨gC10⟩ ⟨gC10⟩ bC2).2.2.2.1 (by decide),
   (c10_guard_self_move_assign gC10 ⟨gC10⟩ ⟨gC10⟩ gC10 ⟨true, some 2, true⟩
      ⟨gC10⟩ ⟨gC10⟩ ⟨gC10⟩ ⟨gC10⟩ bC2).2.2.2.2.1 (by decide),
   (c10_guard_self_move_assign gC10 ⟨gC10⟩ ⟨gC10⟩ gC10 ⟨true, some 2, true⟩
      ⟨gC10⟩ ⟨gC10⟩ ⟨gC10⟩ ⟨gC10⟩ bC2).2.2.2.2.2 (by decide)⟩

end Bustub
